import Mathlib

/-!
# Verification of the notification dispatch core (`src/main.go`)

Shallow embedding of the POST `/notification` handler of `main.go`.

The handler is a Gin closure over three pieces of state/configuration:
`notificationsMap : map[string][]EmailMetadata`, an `EmailService`
(`SendEmail(address, body) error`), a `NotificationRepository`
(`Insert(Notification) error`), and an `int` `batchAmount`.  We model the
collaborators as boolean oracles (`true` = the Go call returned `nil`),
the map as a total function defaulting to `[]` (a missing Go map key reads
as the nil slice), and the handler as a pure function from
(map, notification) to an HTTP response, the new map, and the lists of
`SendEmail` / `Insert` calls it performed, in order.

`metadata` is a `json.RawMessage`; we model the parsed JSON value as an
inductive `Json` (`Option Json`: `none` is an absent field, whose nil
`RawMessage` makes `json.Unmarshal` fail).  `unmarshalEmail` models Go's
`json.Unmarshal` into the `EmailMetadata` struct: `null` or an absent key
leaves a field at its zero value (missing fields are NOT an error in Go),
a non-string value for a string field or a non-object payload is an error.
(Go also matches field names case-insensitively; we model exact-name
matching, which agrees with Go on every payload considered here.)
-/

/-- A parsed JSON value (the content of a Go `json.RawMessage`). -/
inductive Json where
  | null : Json
  | bool (b : Bool) : Json
  | num (n : Int) : Json
  | str (s : String) : Json
  | arr (elems : List Json) : Json
  | obj (fields : List (String × Json)) : Json

/-- Go struct `EmailMetadata { EmailAddress, EmailBody string }`. -/
structure EmailMetadata where
  emailAddress : String
  emailBody : String
deriving DecidableEq

instance : Inhabited EmailMetadata := ⟨⟨"", ""⟩⟩

/-- Go struct `SystemMetadata { UUID, Body string }`.  Declared in
`main.go` but never unmarshalled by the handler: the `system` route
inserts the raw notification without decoding its metadata. -/
structure SystemMetadata where
  uuid : String
  body : String
deriving DecidableEq

/-- Go struct `Notification` as bound by `c.ShouldBindJSON`.  Route and
type are plain Go string types (`DeliveryRoute`, `NotificationType`), so
any string binds.  `metadata = none` models a nil `json.RawMessage`
(field absent from the envelope). -/
structure Notification where
  date : String
  eventName : String
  deliveryRoute : String
  notificationType : String
  metadata : Option Json

/-- One step of `json.Unmarshal` into `EmailMetadata`: apply a single
JSON object member to the struct being filled.  A `string` value sets the
matching field, `null` leaves it unchanged, any other value for a known
field is a type error, unknown keys are ignored. -/
def applyEmailField (em : EmailMetadata) : String × Json → Option EmailMetadata
  | ("emailAddress", Json.str s) => some { em with emailAddress := s }
  | ("emailAddress", Json.null) => some em
  | ("emailAddress", _) => none
  | ("emailBody", Json.str s) => some { em with emailBody := s }
  | ("emailBody", Json.null) => some em
  | ("emailBody", _) => none
  | (_, _) => some em

/-- Fold `applyEmailField` over the members of a JSON object, failing on
the first type error (as `json.Unmarshal` does). -/
def applyEmailFields (em : EmailMetadata) : List (String × Json) → Option EmailMetadata
  | [] => some em
  | f :: fs =>
    match applyEmailField em f with
    | some em2 => applyEmailFields em2 fs
    | none => none

/-- `json.Unmarshal(notification.Metadata, &emailMetadata)`.
`none` (nil raw message) is an error; JSON `null` succeeds leaving the
zero-valued struct; a JSON object fills fields member by member (missing
members keep their zero value — not an error); anything else is an
error. -/
def unmarshalEmail : Option Json → Option EmailMetadata
  | none => none
  | some Json.null => some ⟨"", ""⟩
  | some (Json.obj fields) => applyEmailFields ⟨"", ""⟩ fields
  | some _ => none

/-- The canonical JSON encoding of an `EmailMetadata` payload. -/
def emailJson (em : EmailMetadata) : Json :=
  Json.obj [("emailAddress", Json.str em.emailAddress),
            ("emailBody", Json.str em.emailBody)]

/-- The in-memory batch state: Go's `notificationsMap`, with a missing
key reading as the empty (nil) slice. -/
def BatchMap : Type := String → List EmailMetadata

/-- Go map assignment `notificationsMap[k] = v`. -/
def BatchMap.update (m : BatchMap) (k : String) (v : List EmailMetadata) : BatchMap :=
  fun j => if j = k then v else m j

/-- The body-merging loop of the flush path:
`for _, email := range queue { emailBody += email.EmailBody + "\n" }`. -/
def joinBodies (queue : List EmailMetadata) : String :=
  queue.foldl (fun acc em => acc ++ em.emailBody ++ "\n") ""

/-- Independent characterization of the merged body demanded by the spec:
every body in order, each followed by a newline.  (The code computes this
with a left fold; the spec claims are checked against this right-recursive
form.) -/
def concatBodies : List EmailMetadata → String
  | [] => ""
  | em :: rest => em.emailBody ++ "\n" ++ concatBodies rest

/-- The three response shapes the handler produces:
`c.JSON(http.StatusOK, …)`, `c.JSON(http.StatusBadRequest, …)`,
`c.JSON(http.StatusInternalServerError, …)`. -/
inductive HttpResp where
  | ok (msg : String) : HttpResp
  | badRequest (err : String) : HttpResp
  | serverError (err : String) : HttpResp
deriving DecidableEq

/-- The observable result of one handler invocation: the HTTP response,
the batch map afterwards, and the `SendEmail` / `Insert` calls made
(argument lists, in call order). -/
structure DispatchResult where
  response : HttpResp
  map : BatchMap
  sends : List (String × String)
  inserts : List Notification

/-- The POST `/notification` handler body (`main.go` lines 66–121), after
`ShouldBindJSON` has produced `n`.  `send a b = true` models
`emailService.SendEmail(a, b) == nil`; `ins n = true` models
`notificationRepo.Insert(n) == nil`; `batchAmount` is the Go `int`. -/
def handleNotification (send : String → String → Bool) (ins : Notification → Bool)
    (batchAmount : Int) (m : BatchMap) (n : Notification) : DispatchResult :=
  if n.deliveryRoute = "email" then
    match unmarshalEmail n.metadata with
    | none =>
      { response := HttpResp.badRequest "Invalid email metadata",
        map := m, sends := [], inserts := [] }
    | some em =>
      if n.notificationType = "instant" then
        if send em.emailAddress em.emailBody then
          { response := HttpResp.ok "Notification received",
            map := m, sends := [(em.emailAddress, em.emailBody)], inserts := [] }
        else
          { response := HttpResp.serverError "Failed to send email",
            map := m, sends := [(em.emailAddress, em.emailBody)], inserts := [] }
      else if n.notificationType = "batch" then
        let m1 := m.update n.eventName (m n.eventName ++ [em])
        if ((m1 n.eventName).length : Int) = batchAmount then
          let body := joinBodies (m1 n.eventName)
          let addr := (m1 n.eventName).headI.emailAddress
          if send addr body then
            { response := HttpResp.ok "Notification received",
              map := m1.update n.eventName [], sends := [(addr, body)], inserts := [] }
          else
            { response := HttpResp.serverError "Failed to send email",
              map := m1, sends := [(addr, body)], inserts := [] }
        else
          { response := HttpResp.ok "Notification received",
            map := m1, sends := [], inserts := [] }
      else
        -- the inner `switch notification.NotificationType` has no default:
        -- an unrecognized type under the email route falls through to the
        -- final `c.JSON(http.StatusOK, …)` having done nothing
        { response := HttpResp.ok "Notification received",
          map := m, sends := [], inserts := [] }
  else if n.deliveryRoute = "system" then
    if ins n then
      { response := HttpResp.ok "Notification received",
        map := m, sends := [], inserts := [n] }
    else
      { response := HttpResp.serverError "Failed to insert notification",
        map := m, sends := [], inserts := [n] }
  else
    { response := HttpResp.badRequest "Invalid notification type",
      map := m, sends := [], inserts := [] }

/-- Run a sequence of handler invocations, threading the batch map and
collecting each invocation's result. -/
def runSeq (send : String → String → Bool) (ins : Notification → Bool)
    (batchAmount : Int) (m : BatchMap) :
    List Notification → List DispatchResult × BatchMap
  | [] => ([], m)
  | n :: rest =>
    let r := handleNotification send ins batchAmount m n
    let (rs, mF) := runSeq send ins batchAmount r.map rest
    (r :: rs, mF)

/-- A valid batched-email notification for event key `k` decoding to `em`. -/
def isBatchFor (k : String) (n : Notification) (em : EmailMetadata) : Prop :=
  n.deliveryRoute = "email" ∧ n.notificationType = "batch" ∧
    n.eventName = k ∧ unmarshalEmail n.metadata = some em

/-! ## Basic lemmas about the embedding -/

theorem BatchMap.update_same (m : BatchMap) (k : String) (v : List EmailMetadata) :
    m.update k v k = v := by
  simp [BatchMap.update]

theorem BatchMap.update_ne (m : BatchMap) (k : String) (v : List EmailMetadata)
    (j : String) (h : j ≠ k) : m.update k v j = m j := by
  simp [BatchMap.update, h]

theorem BatchMap.update_update (m : BatchMap) (k : String)
    (v w : List EmailMetadata) : (m.update k v).update k w = m.update k w := by
  funext j
  by_cases h : j = k <;> simp [BatchMap.update, h]

theorem BatchMap.update_self (m : BatchMap) (k : String) :
    m.update k (m k) = m := by
  funext j
  by_cases h : j = k <;> simp [BatchMap.update, h]

theorem joinBodies_go (q : List EmailMetadata) :
    ∀ acc : String,
      q.foldl (fun acc em => acc ++ em.emailBody ++ "\n") acc =
        acc ++ concatBodies q := by
  induction q with
  | nil => intro acc; simp [concatBodies, String.append_empty]
  | cons em rest ih =>
    intro acc
    rw [List.foldl_cons, ih, concatBodies]
    simp [String.append_assoc]

/-- The flush loop's left fold produces exactly the newline-terminated
concatenation of the queued bodies in order. -/
theorem joinBodies_eq_concat (q : List EmailMetadata) :
    joinBodies q = concatBodies q := by
  have h := joinBodies_go q ""
  simpa [joinBodies, String.empty_append] using h

theorem unmarshal_emailJson (em : EmailMetadata) :
    unmarshalEmail (some (emailJson em)) = some em := rfl

/-! ## Branch equations for `handleNotification` -/

theorem handle_unroutable (send : String → String → Bool) (ins : Notification → Bool)
    (ba : Int) (m : BatchMap) (n : Notification)
    (h1 : n.deliveryRoute ≠ "email") (h2 : n.deliveryRoute ≠ "system") :
    handleNotification send ins ba m n =
      ⟨HttpResp.badRequest "Invalid notification type", m, [], []⟩ := by
  simp [handleNotification, h1, h2]

theorem handle_system_ins_ok (send : String → String → Bool) (ins : Notification → Bool)
    (ba : Int) (m : BatchMap) (n : Notification)
    (h : n.deliveryRoute = "system") (hins : ins n = true) :
    handleNotification send ins ba m n =
      ⟨HttpResp.ok "Notification received", m, [], [n]⟩ := by
  simp [handleNotification, h, hins]

theorem handle_system_ins_fail (send : String → String → Bool) (ins : Notification → Bool)
    (ba : Int) (m : BatchMap) (n : Notification)
    (h : n.deliveryRoute = "system") (hins : ins n = false) :
    handleNotification send ins ba m n =
      ⟨HttpResp.serverError "Failed to insert notification", m, [], [n]⟩ := by
  simp [handleNotification, h, hins]

theorem handle_email_decode_fail (send : String → String → Bool) (ins : Notification → Bool)
    (ba : Int) (m : BatchMap) (n : Notification)
    (h : n.deliveryRoute = "email") (hdec : unmarshalEmail n.metadata = none) :
    handleNotification send ins ba m n =
      ⟨HttpResp.badRequest "Invalid email metadata", m, [], []⟩ := by
  simp [handleNotification, h, hdec]

theorem handle_instant_send_ok (send : String → String → Bool) (ins : Notification → Bool)
    (ba : Int) (m : BatchMap) (n : Notification) (em : EmailMetadata)
    (h : n.deliveryRoute = "email") (ht : n.notificationType = "instant")
    (hdec : unmarshalEmail n.metadata = some em)
    (hsend : send em.emailAddress em.emailBody = true) :
    handleNotification send ins ba m n =
      ⟨HttpResp.ok "Notification received", m,
        [(em.emailAddress, em.emailBody)], []⟩ := by
  simp [handleNotification, h, ht, hdec, hsend]

theorem handle_instant_send_fail (send : String → String → Bool) (ins : Notification → Bool)
    (ba : Int) (m : BatchMap) (n : Notification) (em : EmailMetadata)
    (h : n.deliveryRoute = "email") (ht : n.notificationType = "instant")
    (hdec : unmarshalEmail n.metadata = some em)
    (hsend : send em.emailAddress em.emailBody = false) :
    handleNotification send ins ba m n =
      ⟨HttpResp.serverError "Failed to send email", m,
        [(em.emailAddress, em.emailBody)], []⟩ := by
  simp [handleNotification, h, ht, hdec, hsend]

theorem handle_email_unknown_type (send : String → String → Bool) (ins : Notification → Bool)
    (ba : Int) (m : BatchMap) (n : Notification) (em : EmailMetadata)
    (h : n.deliveryRoute = "email") (ht1 : n.notificationType ≠ "instant")
    (ht2 : n.notificationType ≠ "batch")
    (hdec : unmarshalEmail n.metadata = some em) :
    handleNotification send ins ba m n =
      ⟨HttpResp.ok "Notification received", m, [], []⟩ := by
  simp [handleNotification, h, ht1, ht2, hdec]

theorem handle_batch_accum (send : String → String → Bool) (ins : Notification → Bool)
    (ba : Int) (m : BatchMap) (n : Notification) (em : EmailMetadata)
    (h1 : n.deliveryRoute = "email") (h2 : n.notificationType = "batch")
    (hdec : unmarshalEmail n.metadata = some em)
    (hlen : ((m n.eventName).length + 1 : Int) ≠ ba) :
    handleNotification send ins ba m n =
      ⟨HttpResp.ok "Notification received",
        m.update n.eventName (m n.eventName ++ [em]), [], []⟩ := by
  have hcond :
      ¬ ((((m.update n.eventName (m n.eventName ++ [em])) n.eventName).length : Int) = ba) := by
    rw [BatchMap.update_same]
    push_cast [List.length_append]
    simpa using hlen
  simp [handleNotification, h1, h2, hdec, hcond]

theorem handle_batch_flush_ok (send : String → String → Bool) (ins : Notification → Bool)
    (ba : Int) (m : BatchMap) (n : Notification) (em : EmailMetadata)
    (h1 : n.deliveryRoute = "email") (h2 : n.notificationType = "batch")
    (hdec : unmarshalEmail n.metadata = some em)
    (hlen : ((m n.eventName).length + 1 : Int) = ba)
    (hsend : send (m n.eventName ++ [em]).headI.emailAddress
        (joinBodies (m n.eventName ++ [em])) = true) :
    handleNotification send ins ba m n =
      ⟨HttpResp.ok "Notification received", m.update n.eventName [],
        [((m n.eventName ++ [em]).headI.emailAddress,
          joinBodies (m n.eventName ++ [em]))], []⟩ := by
  have hcond :
      ((((m.update n.eventName (m n.eventName ++ [em])) n.eventName).length : Int) = ba) := by
    rw [BatchMap.update_same]
    push_cast [List.length_append]
    simpa using hlen
  simp [handleNotification, h1, h2, hdec, hcond, hsend, hlen, BatchMap.update_same,
    BatchMap.update_update]

theorem handle_batch_flush_fail (send : String → String → Bool) (ins : Notification → Bool)
    (ba : Int) (m : BatchMap) (n : Notification) (em : EmailMetadata)
    (h1 : n.deliveryRoute = "email") (h2 : n.notificationType = "batch")
    (hdec : unmarshalEmail n.metadata = some em)
    (hlen : ((m n.eventName).length + 1 : Int) = ba)
    (hsend : send (m n.eventName ++ [em]).headI.emailAddress
        (joinBodies (m n.eventName ++ [em])) = false) :
    handleNotification send ins ba m n =
      ⟨HttpResp.serverError "Failed to send email",
        m.update n.eventName (m n.eventName ++ [em]),
        [((m n.eventName ++ [em]).headI.emailAddress,
          joinBodies (m n.eventName ++ [em]))], []⟩ := by
  have hcond :
      ((((m.update n.eventName (m n.eventName ++ [em])) n.eventName).length : Int) = ba) := by
    rw [BatchMap.update_same]
    push_cast [List.length_append]
    simpa using hlen
  simp [handleNotification, h1, h2, hdec, hcond, hsend, hlen, BatchMap.update_same]

/-! ## Running sequences of dispatches -/

theorem runSeq_nil (send : String → String → Bool) (ins : Notification → Bool)
    (ba : Int) (m : BatchMap) : runSeq send ins ba m [] = ([], m) := rfl

theorem runSeq_cons (send : String → String → Bool) (ins : Notification → Bool)
    (ba : Int) (m : BatchMap) (n : Notification) (rest : List Notification) :
    runSeq send ins ba m (n :: rest) =
      ((handleNotification send ins ba m n) ::
          (runSeq send ins ba (handleNotification send ins ba m n).map rest).1,
        (runSeq send ins ba (handleNotification send ins ba m n).map rest).2) := rfl

/-- As long as no intermediate length hits the threshold, a run of valid
batched notifications for key `k` accumulates them all: every response is
200 with no send, and the final map extends the queue at `k` by the
decoded metadata in arrival order. -/
theorem runSeq_accum_all (send : String → String → Bool) (ins : Notification → Bool)
    (ba : Int) (k : String) :
    ∀ {ns : List Notification} {metas : List EmailMetadata},
      List.Forall₂ (isBatchFor k) ns metas →
      ∀ m : BatchMap,
        (∀ i : Nat, 1 ≤ i → i ≤ ns.length → ((m k).length + (i : Int)) ≠ ba) →
        ((runSeq send ins ba m ns).1.map (fun r => (r.response, r.sends)) =
            List.replicate ns.length
              (HttpResp.ok "Notification received", ([] : List (String × String)))) ∧
          (runSeq send ins ba m ns).2 = m.update k (m k ++ metas) := by
  intro ns metas hF
  induction hF with
  | nil =>
    intro m hno
    refine ⟨by simp [runSeq_nil], ?_⟩
    simp [runSeq_nil, BatchMap.update_self]
  | @cons n em ns2 metas2 h1 h2 ih =>
    intro m hno
    obtain ⟨hr, hty, hev, hdec⟩ := h1
    have hlen1 : ((m n.eventName).length + 1 : Int) ≠ ba := by
      rw [hev]
      have h := hno 1 (by omega) (by simp)
      simpa using h
    have hstep := handle_batch_accum send ins ba m n em hr hty hdec hlen1
    rw [hev] at hstep
    have hno2 : ∀ i : Nat, 1 ≤ i → i ≤ ns2.length →
        (((m.update k (m k ++ [em])) k).length + (i : Int)) ≠ ba := by
      intro i hi1 hi2
      rw [BatchMap.update_same]
      have h := hno (i + 1) (by omega) (by simp; omega)
      push_cast [List.length_append, List.length_singleton] at h ⊢
      omega
    have hih := ih (m.update k (m k ++ [em])) hno2
    constructor
    · rw [runSeq_cons, hstep]
      simp only [List.map_cons, hih.1, List.length_cons, List.replicate_succ]
    · rw [runSeq_cons, hstep]
      simp only
      rw [hih.2, BatchMap.update_same, BatchMap.update_update, List.append_assoc,
        List.singleton_append]

/-- A run of valid batched notifications for key `k` whose total count
exactly reaches the threshold: every dispatch but the last accumulates
(200, no send), and the last one flushes, calling the sender exactly once
with the address of the first queued element and the merged body of the
whole queue. -/
theorem runSeq_batch_flush (send : String → String → Bool) (ins : Notification → Bool)
    (ba : Int) (k : String) :
    ∀ {ns : List Notification} {metas : List EmailMetadata},
      List.Forall₂ (isBatchFor k) ns metas →
      ∀ m : BatchMap, ns ≠ [] →
        ((m k).length + (metas.length : Int)) = ba →
        (runSeq send ins ba m ns).1.map (fun r => (r.response, r.sends)) =
          List.replicate (ns.length - 1)
              (HttpResp.ok "Notification received", ([] : List (String × String))) ++
            [((if send (m k ++ metas).headI.emailAddress (joinBodies (m k ++ metas)) = true
                then HttpResp.ok "Notification received"
                else HttpResp.serverError "Failed to send email"),
              [((m k ++ metas).headI.emailAddress, joinBodies (m k ++ metas))])] := by
  intro ns metas hF
  induction hF with
  | nil =>
    intro m hne _
    exact absurd rfl hne
  | @cons n em ns2 metas2 h1 h2 ih =>
    intro m _ hlen
    obtain ⟨hr, hty, hev, hdec⟩ := h1
    cases h2 with
    | nil =>
      have hlen1 : ((m n.eventName).length + 1 : Int) = ba := by
        rw [hev]
        simpa using hlen
      cases hs : send (m k ++ [em]).headI.emailAddress (joinBodies (m k ++ [em])) with
      | true =>
        have hstep := handle_batch_flush_ok send ins ba m n em hr hty hdec hlen1
          (by rw [hev]; exact hs)
        rw [hev] at hstep
        rw [runSeq_cons, hstep]
        simp [runSeq_nil, hs]
      | false =>
        have hstep := handle_batch_flush_fail send ins ba m n em hr hty hdec hlen1
          (by rw [hev]; exact hs)
        rw [hev] at hstep
        rw [runSeq_cons, hstep]
        simp [runSeq_nil, hs]
    | @cons n2 em2 ns3 metas3 h3 h4 =>
      have hlen0 : ((m k).length + 1 : Int) ≠ ba := by
        have h := hlen
        simp only [List.length_cons] at h
        push_cast at h ⊢
        omega
      have hlen1 : ((m n.eventName).length + 1 : Int) ≠ ba := by
        rw [hev]
        exact hlen0
      have hstep := handle_batch_accum send ins ba m n em hr hty hdec hlen1
      rw [hev] at hstep
      have hlen2 : (((m.update k (m k ++ [em])) k).length +
          ((em2 :: metas3).length : Int)) = ba := by
        rw [BatchMap.update_same]
        have h := hlen
        simp only [List.length_cons] at h
        push_cast [List.length_append, List.length_singleton, List.length_cons, List.length_nil] at h ⊢
        omega
      have hih := ih (m.update k (m k ++ [em])) (List.cons_ne_nil n2 ns3) hlen2
      rw [runSeq_cons, hstep]
      simp only [List.map_cons, hih, BatchMap.update_same]
      rw [List.append_assoc, List.singleton_append]
      simp [List.replicate_succ]

/-! ## Claim theorems -/

/-- **C1**: for every `batchAmount` N ≥ 1 and every sequence of N valid
email+batch notifications sharing an event key, starting from an empty
queue for that key, the first N−1 dispatches respond 200 ("Accumulated")
with no send, and the Nth triggers exactly one flush that calls the email
sender once, with a body equal to the concatenation of all N bodies in
arrival order each followed by a newline, and with the address of the
first (oldest) queued element. -/
theorem batch_sequence_accumulates_then_flushes
    (send : String → String → Bool) (ins : Notification → Bool)
    (k : String) (ns : List Notification) (metas : List EmailMetadata)
    (hF : List.Forall₂ (isBatchFor k) ns metas)
    (m0 : BatchMap) (hm0 : m0 k = [])
    (N : Nat) (hN : 1 ≤ N) (hlen : metas.length = N)
    (ba : Int) (hba : ba = (N : Int)) :
    (runSeq send ins ba m0 ns).1.map (fun r => (r.response, r.sends)) =
      List.replicate (N - 1)
          (HttpResp.ok "Notification received", ([] : List (String × String))) ++
        [((if send metas.headI.emailAddress (concatBodies metas) = true
            then HttpResp.ok "Notification received"
            else HttpResp.serverError "Failed to send email"),
          [(metas.headI.emailAddress, concatBodies metas)])] := by
  have hle := hF.length_eq
  have hne : ns ≠ [] := by
    intro hcon
    rw [hcon] at hle
    simp only [List.length_nil] at hle
    omega
  have harith : ((m0 k).length + (metas.length : Int)) = ba := by
    rw [hm0, hba, hlen]
    simp
  have h := runSeq_batch_flush send ins ba k hF m0 hne harith
  rw [hm0] at h
  simp only [List.nil_append] at h
  rw [h]
  simp only [joinBodies_eq_concat, hle, hlen]

/-- Witness for **C1**: the spec scenario — `batchAmount = 2`, bodies
"hi" then "bye", a sender that succeeds: one Accumulated response, then a
flush sending `("a@x.com", "hi\nbye\n")`. -/
theorem batch_sequence_accumulates_then_flushes_witness :
    (runSeq (fun _ _ => true) (fun _ => true) 2 (fun _ => [])
        [⟨"2024-01-01", "promo", "email", "batch", some (emailJson ⟨"a@x.com", "hi"⟩)⟩,
         ⟨"2024-01-02", "promo", "email", "batch", some (emailJson ⟨"b@x.com", "bye"⟩)⟩]).1.map
        (fun r => (r.response, r.sends)) =
      List.replicate 1 (HttpResp.ok "Notification received", ([] : List (String × String))) ++
        [(HttpResp.ok "Notification received", [("a@x.com", "hi\nbye\n")])] := by
  have h := batch_sequence_accumulates_then_flushes (fun _ _ => true) (fun _ => true)
    "promo"
    [⟨"2024-01-01", "promo", "email", "batch", some (emailJson ⟨"a@x.com", "hi"⟩)⟩,
     ⟨"2024-01-02", "promo", "email", "batch", some (emailJson ⟨"b@x.com", "bye"⟩)⟩]
    [⟨"a@x.com", "hi"⟩, ⟨"b@x.com", "bye"⟩]
    (List.Forall₂.cons ⟨rfl, rfl, rfl, rfl⟩
      (List.Forall₂.cons ⟨rfl, rfl, rfl, rfl⟩ List.Forall₂.nil))
    (fun _ => []) rfl 2 (by omega) rfl 2 rfl
  rw [h]
  decide

/-- **C2** (counterexample): the claim says a failed flush send leaves
the queue for the key empty ("already cleared before the send outcome was
known").  In the code the clear (`notificationsMap[...] = []`) runs only
after a successful send: with `batchAmount = 1` and a failing sender, the
dispatch responds 500 and the queue still holds the element. -/
theorem flush_failure_empty_queue_refuted :
    (handleNotification (fun _ _ => false) (fun _ => true) 1 (fun _ => [])
        ⟨"2024-01-01", "promo", "email", "batch",
          some (emailJson ⟨"b@x.com", "hi"⟩)⟩).response =
      HttpResp.serverError "Failed to send email" ∧
    (handleNotification (fun _ _ => false) (fun _ => true) 1 (fun _ => [])
        ⟨"2024-01-01", "promo", "email", "batch",
          some (emailJson ⟨"b@x.com", "hi"⟩)⟩).map "promo" =
      [⟨"b@x.com", "hi"⟩] ∧
    ([⟨"b@x.com", "hi"⟩] : List EmailMetadata) ≠ [] := by
  exact ⟨by decide, by decide, by decide⟩

/-- **C2** (amended): if the sender errors on a flush send (the queue for
the key reaches `batchAmount` on this dispatch), the dispatch responds
500 (DeliveryFailed) and the queue for that key RETAINS all `batchAmount`
elements: the code clears the queue only after a successful send, so a
failed flush loses nothing (instead the key can never flush again by
exact-equality). -/
theorem flush_failure_keeps_queue
    (send : String → String → Bool) (ins : Notification → Bool) (ba : Int)
    (m : BatchMap) (n : Notification) (k : String) (em : EmailMetadata)
    (h : isBatchFor k n em)
    (hlen : ((m k).length + 1 : Int) = ba)
    (hsend : send (m k ++ [em]).headI.emailAddress
        (joinBodies (m k ++ [em])) = false) :
    (handleNotification send ins ba m n).response =
        HttpResp.serverError "Failed to send email" ∧
      (handleNotification send ins ba m n).map k = m k ++ [em] ∧
      (handleNotification send ins ba m n).sends =
        [((m k ++ [em]).headI.emailAddress, joinBodies (m k ++ [em]))] := by
  obtain ⟨hr, hty, hev, hdec⟩ := h
  have hstep := handle_batch_flush_fail send ins ba m n em hr hty hdec
    (by rw [hev]; exact hlen) (by rw [hev]; exact hsend)
  rw [hev] at hstep
  rw [hstep]
  exact ⟨rfl, BatchMap.update_same m k (m k ++ [em]), rfl⟩

/-- Witness for the amended **C2** at `batchAmount = 2` with one element
already queued and a sender that fails. -/
theorem flush_failure_keeps_queue_witness :
    (handleNotification (fun _ _ => false) (fun _ => true) 2
        (fun j => if j = "promo" then [⟨"a@x.com", "hi"⟩] else [])
        ⟨"2024-01-02", "promo", "email", "batch",
          some (emailJson ⟨"b@x.com", "bye"⟩)⟩).response =
      HttpResp.serverError "Failed to send email" ∧
    (handleNotification (fun _ _ => false) (fun _ => true) 2
        (fun j => if j = "promo" then [⟨"a@x.com", "hi"⟩] else [])
        ⟨"2024-01-02", "promo", "email", "batch",
          some (emailJson ⟨"b@x.com", "bye"⟩)⟩).map "promo" =
      [⟨"a@x.com", "hi"⟩, ⟨"b@x.com", "bye"⟩] ∧
    (handleNotification (fun _ _ => false) (fun _ => true) 2
        (fun j => if j = "promo" then [⟨"a@x.com", "hi"⟩] else [])
        ⟨"2024-01-02", "promo", "email", "batch",
          some (emailJson ⟨"b@x.com", "bye"⟩)⟩).sends =
      [("a@x.com", "hi\nbye\n")] := by
  have h := flush_failure_keeps_queue (fun _ _ => false) (fun _ => true) 2
    (fun j => if j = "promo" then [⟨"a@x.com", "hi"⟩] else [])
    ⟨"2024-01-02", "promo", "email", "batch",
      some (emailJson ⟨"b@x.com", "bye"⟩)⟩
    "promo" ⟨"b@x.com", "bye"⟩ ⟨rfl, rfl, rfl, rfl⟩ (by decide) (by decide)
  refine ⟨h.1, ?_, ?_⟩
  · rw [h.2.1]
    decide
  · rw [h.2.2]
    decide

/-- A single dispatch preserves the per-key bound `length ≤ ba − 1`,
provided the sender always succeeds and `1 ≤ ba`. -/
theorem handle_preserves_bound (send : String → String → Bool)
    (ins : Notification → Bool) (ba : Int)
    (hsend : ∀ a b, send a b = true) (hba : 1 ≤ ba)
    (m : BatchMap) (hm : ∀ j, ((m j).length : Int) ≤ ba - 1)
    (n : Notification) :
    ∀ j, (((handleNotification send ins ba m n).map j).length : Int) ≤ ba - 1 := by
  intro j
  by_cases hr : n.deliveryRoute = "email"
  · cases hdec : unmarshalEmail n.metadata with
    | none =>
      rw [handle_email_decode_fail send ins ba m n hr hdec]
      exact hm j
    | some em =>
      by_cases hty : n.notificationType = "instant"
      · cases hs : send em.emailAddress em.emailBody with
        | true =>
          rw [handle_instant_send_ok send ins ba m n em hr hty hdec hs]
          exact hm j
        | false =>
          rw [handle_instant_send_fail send ins ba m n em hr hty hdec hs]
          exact hm j
      · by_cases htyb : n.notificationType = "batch"
        · by_cases hl : ((m n.eventName).length + 1 : Int) = ba
          · rw [handle_batch_flush_ok send ins ba m n em hr htyb hdec hl (hsend _ _)]
            by_cases hj : j = n.eventName
            · subst hj
              simp only [BatchMap.update_same]
              simp
              omega
            · simp only [BatchMap.update_ne m n.eventName [] j hj]
              exact hm j
          · rw [handle_batch_accum send ins ba m n em hr htyb hdec hl]
            by_cases hj : j = n.eventName
            · subst hj
              simp only [BatchMap.update_same]
              have h := hm n.eventName
              push_cast [List.length_append, List.length_singleton] at hl ⊢
              omega
            · simp only [BatchMap.update_ne m n.eventName (m n.eventName ++ [em]) j hj]
              exact hm j
        · rw [handle_email_unknown_type send ins ba m n em hr hty htyb hdec]
          exact hm j
  · by_cases hsys : n.deliveryRoute = "system"
    · cases hins : ins n with
      | true =>
        rw [handle_system_ins_ok send ins ba m n hsys hins]
        exact hm j
      | false =>
        rw [handle_system_ins_fail send ins ba m n hsys hins]
        exact hm j
    · rw [handle_unroutable send ins ba m n hr hsys]
      exact hm j

/-- The bound of `handle_preserves_bound` is preserved along any run. -/
theorem runSeq_preserves_bound (send : String → String → Bool)
    (ins : Notification → Bool) (ba : Int)
    (hsend : ∀ a b, send a b = true) (hba : 1 ≤ ba) :
    ∀ (ns : List Notification) (m : BatchMap),
      (∀ j, ((m j).length : Int) ≤ ba - 1) →
      ∀ j, (((runSeq send ins ba m ns).2 j).length : Int) ≤ ba - 1 := by
  intro ns
  induction ns with
  | nil =>
    intro m hm j
    rw [runSeq_nil]
    exact hm j
  | cons n rest ih =>
    intro m hm j
    rw [runSeq_cons]
    exact ih (handleNotification send ins ba m n).map
      (handle_preserves_bound send ins ba hsend hba m hm n) j

/-- **C3** (counterexample): with `batchAmount = 1` (≥ 1) and a failing
sender, after a single dispatch the queue observed between dispatches
holds 1 element, exceeding `batchAmount - 1 = 0` — the claimed bound
fails on the flush-send-failure path, where the code does not clear. -/
theorem queue_bound_invariant_refuted :
    ((runSeq (fun _ _ => false) (fun _ => true) 1 (fun _ => [])
        [⟨"2024-01-03", "ev3", "email", "batch",
          some (emailJson ⟨"c@x.com", "hey"⟩)⟩]).2 "ev3").length = 1 ∧
    ¬ (((1 : Nat) : Int) ≤ 1 - 1) := by
  exact ⟨by decide, by decide⟩

/-- **C3** (amended): provided the email sender succeeds on every call
(and `batchAmount ≥ 1`): (1) from an empty initial map, after any finite
sequence of dispatches every key's queue holds at most `batchAmount - 1`
elements; (2) a dispatch that triggers a flush leaves that key's queue
exactly empty; (3) from an empty queue (and `batchAmount ≥ 2`), a batched
dispatch starts a fresh accumulation of length 1. -/
theorem queue_bound_invariant_of_send_success
    (send : String → String → Bool) (ins : Notification → Bool) (ba : Int)
    (hsend : ∀ a b, send a b = true) (hba : 1 ≤ ba) :
    (∀ (m0 : BatchMap), (∀ j, m0 j = []) →
      ∀ (ns : List Notification) (j : String),
        (((runSeq send ins ba m0 ns).2 j).length : Int) ≤ ba - 1) ∧
    (∀ (m : BatchMap) (n : Notification) (k : String) (em : EmailMetadata),
      isBatchFor k n em → ((m k).length + 1 : Int) = ba →
      (handleNotification send ins ba m n).map k = []) ∧
    (∀ (m : BatchMap) (n : Notification) (k : String) (em : EmailMetadata),
      isBatchFor k n em → m k = [] → 2 ≤ ba →
      (handleNotification send ins ba m n).map k = [em]) := by
  refine ⟨?_, ?_, ?_⟩
  · intro m0 h0 ns j
    refine runSeq_preserves_bound send ins ba hsend hba ns m0 ?_ j
    intro j2
    rw [h0 j2]
    simp
    omega
  · intro m n k em h hlen
    obtain ⟨hr, hty, hev, hdec⟩ := h
    have hstep := handle_batch_flush_ok send ins ba m n em hr hty hdec
      (by rw [hev]; exact hlen) (hsend _ _)
    rw [hev] at hstep
    rw [hstep]
    exact BatchMap.update_same m k []
  · intro m n k em h hk hba2
    obtain ⟨hr, hty, hev, hdec⟩ := h
    have hlen : ((m n.eventName).length + 1 : Int) ≠ ba := by
      rw [hev, hk]
      simp
      omega
    have hstep := handle_batch_accum send ins ba m n em hr hty hdec hlen
    rw [hev] at hstep
    rw [hstep]
    have h2 : m.update k (m k ++ [em]) k = [em] := by
      rw [BatchMap.update_same, hk, List.nil_append]
    exact h2

/-- Witness for the amended **C3** at `batchAmount = 2` after one batched
dispatch from the empty map. -/
theorem queue_bound_invariant_of_send_success_witness :
    (((runSeq (fun _ _ => true) (fun _ => true) 2 (fun _ => [])
        [⟨"2024-01-03", "ev", "email", "batch",
          some (emailJson ⟨"a@x.com", "x"⟩)⟩]).2 "ev").length : Int) ≤ 2 - 1 := by
  exact (queue_bound_invariant_of_send_success (fun _ _ => true) (fun _ => true) 2
    (fun a b => rfl) (by decide)).1 (fun _ => []) (fun j => rfl)
    [⟨"2024-01-03", "ev", "email", "batch", some (emailJson ⟨"a@x.com", "x"⟩)⟩] "ev"

/-- **C4** (counterexample): `deliveryRoute = "email"` with unrecognized
`notificationType = "weird"` and valid metadata does NOT fail with 400:
the inner Go `switch` has no default case, so control falls through to
the final 200 response having done nothing.  The claim's "every pair not
one of email+instant, email+batch, system+any fails with
UnroutableNotification" is false for this input. -/
theorem unrecognized_type_rejection_refuted :
    (handleNotification (fun _ _ => true) (fun _ => true) 3 (fun _ => [])
        ⟨"2024-01-04", "ev4", "email", "weird",
          some (emailJson ⟨"a@x.com", "b"⟩)⟩).response =
      HttpResp.ok "Notification received" ∧
    (handleNotification (fun _ _ => true) (fun _ => true) 3 (fun _ => [])
        ⟨"2024-01-04", "ev4", "email", "weird",
          some (emailJson ⟨"a@x.com", "b"⟩)⟩).response ≠
      HttpResp.badRequest "Invalid notification type" ∧
    (handleNotification (fun _ _ => true) (fun _ => true) 3 (fun _ => [])
        ⟨"2024-01-04", "ev4", "email", "weird",
          some (emailJson ⟨"a@x.com", "b"⟩)⟩).sends = [] ∧
    (handleNotification (fun _ _ => true) (fun _ => true) 3 (fun _ => [])
        ⟨"2024-01-04", "ev4", "email", "weird",
          some (emailJson ⟨"a@x.com", "b"⟩)⟩).map "ev4" = [] := by
  exact ⟨by decide, by decide, by decide, by decide⟩

/-- **C4** (amended): an unrecognized `deliveryRoute` (neither "email"
nor "system") is rejected 400 ("Invalid notification type") with no send,
no insert and no queue mutation; but `deliveryRoute = "email"` with an
unrecognized `notificationType` (after a successful metadata decode)
responds 200 with no send, no insert and no queue mutation — it is NOT
rejected. -/
theorem routing_rejection_behavior (send : String → String → Bool)
    (ins : Notification → Bool) (ba : Int) (m : BatchMap)
    (n : Notification) (em : EmailMetadata) :
    (n.deliveryRoute ≠ "email" → n.deliveryRoute ≠ "system" →
      handleNotification send ins ba m n =
        ⟨HttpResp.badRequest "Invalid notification type", m, [], []⟩) ∧
    (n.deliveryRoute = "email" → n.notificationType ≠ "instant" →
      n.notificationType ≠ "batch" → unmarshalEmail n.metadata = some em →
      handleNotification send ins ba m n =
        ⟨HttpResp.ok "Notification received", m, [], []⟩) := by
  constructor
  · intro h1 h2
    exact handle_unroutable send ins ba m n h1 h2
  · intro h1 h2 h3 h4
    exact handle_email_unknown_type send ins ba m n em h1 h2 h3 h4

/-- Witness for the amended **C4**: `deliveryRoute = "sms"` is rejected
400 untouched, and `email` + `"weird"` responds 200 untouched. -/
theorem routing_rejection_behavior_witness :
    handleNotification (fun _ _ => true) (fun _ => true) 3 (fun _ => [])
        ⟨"2024-01-04", "ev4", "sms", "instant", none⟩ =
      ⟨HttpResp.badRequest "Invalid notification type", (fun _ => []), [], []⟩ ∧
    handleNotification (fun _ _ => true) (fun _ => true) 3 (fun _ => [])
        ⟨"2024-01-04", "ev4", "email", "weird",
          some (emailJson ⟨"a@x.com", "b"⟩)⟩ =
      ⟨HttpResp.ok "Notification received", (fun _ => []), [], []⟩ := by
  constructor
  · exact (routing_rejection_behavior (fun _ _ => true) (fun _ => true) 3 (fun _ => [])
      ⟨"2024-01-04", "ev4", "sms", "instant", none⟩ ⟨"", ""⟩).1 (by decide) (by decide)
  · exact (routing_rejection_behavior (fun _ _ => true) (fun _ => true) 3 (fun _ => [])
      ⟨"2024-01-04", "ev4", "email", "weird", some (emailJson ⟨"a@x.com", "b"⟩)⟩
      ⟨"a@x.com", "b"⟩).2 (by decide) (by decide) (by decide) rfl

/-- **C5** (counterexample): a `system` notification whose metadata has
the EMAIL shape is not rejected at all: the handler performs no metadata
decoding on the system route, invokes `Insert` with the full record, and
responds 200 — not `Rejected(InvalidMetadata)`. -/
theorem system_metadata_validation_refuted :
    (handleNotification (fun _ _ => true) (fun _ => true) 3 (fun _ => [])
        ⟨"2024-01-05", "ev5", "system", "instant",
          some (emailJson ⟨"a@x.com", "hello"⟩)⟩).response =
      HttpResp.ok "Notification received" ∧
    (handleNotification (fun _ _ => true) (fun _ => true) 3 (fun _ => [])
        ⟨"2024-01-05", "ev5", "system", "instant",
          some (emailJson ⟨"a@x.com", "hello"⟩)⟩).response ≠
      HttpResp.badRequest "Invalid email metadata" ∧
    (handleNotification (fun _ _ => true) (fun _ => true) 3 (fun _ => [])
        ⟨"2024-01-05", "ev5", "system", "instant",
          some (emailJson ⟨"a@x.com", "hello"⟩)⟩).inserts =
      [⟨"2024-01-05", "ev5", "system", "instant",
        some (emailJson ⟨"a@x.com", "hello"⟩)⟩] ∧
    ([⟨"2024-01-05", "ev5", "system", "instant",
        some (emailJson ⟨"a@x.com", "hello"⟩)⟩] : List Notification) ≠ [] := by
  refine ⟨by decide, by decide, rfl, ?_⟩
  exact List.cons_ne_nil _ _

/-- **C5** (amended): the `system` route performs NO metadata validation:
even a notification whose metadata is email-shaped (`{emailAddress,
emailBody}`) is passed to the store's `Insert` with the full record, and
the outcome follows the insert result — it is never
`Rejected(InvalidMetadata)`. -/
theorem system_route_no_metadata_validation (send : String → String → Bool)
    (ins : Notification → Bool) (ba : Int) (m : BatchMap)
    (n : Notification) (em : EmailMetadata)
    (hroute : n.deliveryRoute = "system")
    (_hmeta : n.metadata = some (emailJson em)) :
    (handleNotification send ins ba m n).inserts = [n] ∧
    (handleNotification send ins ba m n).sends = [] ∧
    (handleNotification send ins ba m n).map = m ∧
    (ins n = true →
      (handleNotification send ins ba m n).response =
        HttpResp.ok "Notification received") ∧
    (ins n = false →
      (handleNotification send ins ba m n).response =
        HttpResp.serverError "Failed to insert notification") := by
  cases hins : ins n with
  | true =>
    rw [handle_system_ins_ok send ins ba m n hroute hins]
    refine ⟨rfl, rfl, rfl, fun _ => rfl, fun hcon => ?_⟩
    simp at hcon
  | false =>
    rw [handle_system_ins_fail send ins ba m n hroute hins]
    refine ⟨rfl, rfl, rfl, fun hcon => ?_, fun _ => rfl⟩
    simp at hcon

/-- Witness for the amended **C5** with a succeeding store. -/
theorem system_route_no_metadata_validation_witness :
    (handleNotification (fun _ _ => true) (fun _ => true) 3 (fun _ => [])
        ⟨"2024-01-05", "ev5", "system", "batch",
          some (emailJson ⟨"a@x.com", "hello"⟩)⟩).inserts =
      [⟨"2024-01-05", "ev5", "system", "batch",
        some (emailJson ⟨"a@x.com", "hello"⟩)⟩] ∧
    (handleNotification (fun _ _ => true) (fun _ => true) 3 (fun _ => [])
        ⟨"2024-01-05", "ev5", "system", "batch",
          some (emailJson ⟨"a@x.com", "hello"⟩)⟩).response =
      HttpResp.ok "Notification received" := by
  have h := system_route_no_metadata_validation (fun _ _ => true) (fun _ => true) 3
    (fun _ => [])
    ⟨"2024-01-05", "ev5", "system", "batch", some (emailJson ⟨"a@x.com", "hello"⟩)⟩
    ⟨"a@x.com", "hello"⟩ rfl rfl
  exact ⟨h.1, h.2.2.2.1 rfl⟩

/-- **C6** (counterexample): a metadata payload `{}` with BOTH required
fields absent decodes successfully to zero values (Go's `json.Unmarshal`
does not require fields), and an email+instant dispatch then invokes the
sender with empty address and body, responding 200 — not
`Rejected(InvalidMetadata)`. -/
theorem missing_field_rejection_refuted :
    unmarshalEmail (some (Json.obj [])) = some ⟨"", ""⟩ ∧
    (handleNotification (fun _ _ => true) (fun _ => true) 3 (fun _ => [])
        ⟨"2024-01-06", "ev6", "email", "instant", some (Json.obj [])⟩).response =
      HttpResp.ok "Notification received" ∧
    (handleNotification (fun _ _ => true) (fun _ => true) 3 (fun _ => [])
        ⟨"2024-01-06", "ev6", "email", "instant", some (Json.obj [])⟩).sends =
      [("", "")] := by
  exact ⟨rfl, by decide, by decide⟩

/-- **C6** (amended): an email-route dispatch is rejected 400 ("Invalid
email metadata") with no send, no insert and no queue mutation exactly
when `json.Unmarshal` fails — i.e. when the payload is absent, is a
non-object/non-null JSON value, or has a non-string value for a required
field.  A payload that merely OMITS `emailAddress`/`emailBody` decodes
successfully to empty strings and is not rejected. -/
theorem email_decode_failure_rejects (send : String → String → Bool)
    (ins : Notification → Bool) (ba : Int) (m : BatchMap) (n : Notification)
    (hroute : n.deliveryRoute = "email")
    (hdec : unmarshalEmail n.metadata = none) :
    handleNotification send ins ba m n =
      ⟨HttpResp.badRequest "Invalid email metadata", m, [], []⟩ ∧
    unmarshalEmail (some (Json.obj [])) = some ⟨"", ""⟩ := by
  exact ⟨handle_email_decode_fail send ins ba m n hroute hdec, rfl⟩

/-- Witness for the amended **C6**: a payload that is a bare string
cannot be parsed into the `EmailMetadata` shape and is rejected 400. -/
theorem email_decode_failure_rejects_witness :
    handleNotification (fun _ _ => true) (fun _ => true) 3 (fun _ => [])
        ⟨"2024-01-06", "ev6", "email", "instant", some (Json.str "oops")⟩ =
      ⟨HttpResp.badRequest "Invalid email metadata", (fun _ => []), [], []⟩ ∧
    unmarshalEmail (some (Json.obj [])) = some ⟨"", ""⟩ := by
  exact email_decode_failure_rejects (fun _ _ => true) (fun _ => true) 3 (fun _ => [])
    ⟨"2024-01-06", "ev6", "email", "instant", some (Json.str "oops")⟩ rfl rfl

/-- **C7**: a valid email+instant dispatch invokes the sender exactly
once with the decoded address and body, mutates nothing, and responds 200
iff the sender succeeds (500 "Failed to send email" when it fails). -/
theorem instant_email_dispatch_correct (send : String → String → Bool)
    (ins : Notification → Bool) (ba : Int) (m : BatchMap)
    (n : Notification) (em : EmailMetadata)
    (hroute : n.deliveryRoute = "email")
    (hty : n.notificationType = "instant")
    (hdec : unmarshalEmail n.metadata = some em) :
    (handleNotification send ins ba m n).sends =
      [(em.emailAddress, em.emailBody)] ∧
    (handleNotification send ins ba m n).map = m ∧
    (handleNotification send ins ba m n).inserts = [] ∧
    ((handleNotification send ins ba m n).response =
        HttpResp.ok "Notification received" ↔
      send em.emailAddress em.emailBody = true) ∧
    (send em.emailAddress em.emailBody = false →
      (handleNotification send ins ba m n).response =
        HttpResp.serverError "Failed to send email") := by
  cases hs : send em.emailAddress em.emailBody with
  | true =>
    rw [handle_instant_send_ok send ins ba m n em hroute hty hdec hs]
    refine ⟨rfl, rfl, rfl, by simp, fun hcon => ?_⟩
    simp at hcon
  | false =>
    rw [handle_instant_send_fail send ins ba m n em hroute hty hdec hs]
    refine ⟨rfl, rfl, rfl, by simp, fun _ => rfl⟩

/-- Witness for **C7** with a succeeding sender. -/
theorem instant_email_dispatch_correct_witness :
    (handleNotification (fun _ _ => true) (fun _ => true) 3 (fun _ => [])
        ⟨"2024-01-07", "ev7", "email", "instant",
          some (emailJson ⟨"a@x.com", "hello"⟩)⟩).sends =
      [("a@x.com", "hello")] ∧
    (handleNotification (fun _ _ => true) (fun _ => true) 3 (fun _ => [])
        ⟨"2024-01-07", "ev7", "email", "instant",
          some (emailJson ⟨"a@x.com", "hello"⟩)⟩).response =
      HttpResp.ok "Notification received" := by
  have h := instant_email_dispatch_correct (fun _ _ => true) (fun _ => true) 3
    (fun _ => [])
    ⟨"2024-01-07", "ev7", "email", "instant", some (emailJson ⟨"a@x.com", "hello"⟩)⟩
    ⟨"a@x.com", "hello"⟩ rfl rfl rfl
  exact ⟨h.1, h.2.2.2.1.mpr rfl⟩

/-- **C8**: every `system`-route dispatch — whatever its
`notificationType` and metadata — invokes `Insert` exactly once with the
full notification record, mutates nothing else, and responds 200 iff the
insert succeeds and 500 "Failed to insert notification" iff it fails. -/
theorem system_route_insert_correct (send : String → String → Bool)
    (ins : Notification → Bool) (ba : Int) (m : BatchMap)
    (n : Notification) (hroute : n.deliveryRoute = "system") :
    (handleNotification send ins ba m n).inserts = [n] ∧
    (handleNotification send ins ba m n).sends = [] ∧
    (handleNotification send ins ba m n).map = m ∧
    ((handleNotification send ins ba m n).response =
        HttpResp.ok "Notification received" ↔ ins n = true) ∧
    ((handleNotification send ins ba m n).response =
        HttpResp.serverError "Failed to insert notification" ↔ ins n = false) := by
  cases hins : ins n with
  | true =>
    rw [handle_system_ins_ok send ins ba m n hroute hins]
    exact ⟨rfl, rfl, rfl, by simp, by simp⟩
  | false =>
    rw [handle_system_ins_fail send ins ba m n hroute hins]
    exact ⟨rfl, rfl, rfl, by simp, by simp⟩

/-- Witness for **C8**: a `system` notification with `system`-shaped
metadata and notificationType "batch" (ignored) is persisted. -/
theorem system_route_insert_correct_witness :
    (handleNotification (fun _ _ => true) (fun _ => true) 3 (fun _ => [])
        ⟨"2024-01-08", "ev8", "system", "batch",
          some (Json.obj [("uuid", Json.str "u1"), ("body", Json.str "b1")])⟩).inserts =
      [⟨"2024-01-08", "ev8", "system", "batch",
        some (Json.obj [("uuid", Json.str "u1"), ("body", Json.str "b1")])⟩] ∧
    (handleNotification (fun _ _ => true) (fun _ => true) 3 (fun _ => [])
        ⟨"2024-01-08", "ev8", "system", "batch",
          some (Json.obj [("uuid", Json.str "u1"), ("body", Json.str "b1")])⟩).response =
      HttpResp.ok "Notification received" := by
  have h := system_route_insert_correct (fun _ _ => true) (fun _ => true) 3
    (fun _ => [])
    ⟨"2024-01-08", "ev8", "system", "batch",
      some (Json.obj [("uuid", Json.str "u1"), ("body", Json.str "b1")])⟩ rfl
  exact ⟨h.1, h.2.2.2.1.mpr rfl⟩

/-- **C9**: with `batchAmount ≤ 0` (in the repo as shipped, the Go
`var batchAmount int` is never assigned, so it is 0), no email+batch
dispatch ever flushes: the length check is exact equality after an
append, and a length of at least 1 can never equal a non-positive
`batchAmount`.  Every such dispatch responds 200/Accumulated with no
send, and the key's queue grows by exactly one element per dispatch,
without bound. -/
theorem nonpositive_batch_amount_never_flushes (send : String → String → Bool)
    (ins : Notification → Bool) (ba : Int) (k : String)
    (ns : List Notification) (metas : List EmailMetadata)
    (hF : List.Forall₂ (isBatchFor k) ns metas)
    (m : BatchMap) (hba : ba ≤ 0) :
    ((runSeq send ins ba m ns).1.map (fun r => (r.response, r.sends)) =
      List.replicate ns.length
        (HttpResp.ok "Notification received", ([] : List (String × String)))) ∧
    (runSeq send ins ba m ns).2 k = m k ++ metas ∧
    ((runSeq send ins ba m ns).2 k).length = (m k).length + metas.length := by
  have hno : ∀ i : Nat, 1 ≤ i → i ≤ ns.length →
      ((m k).length + (i : Int)) ≠ ba := by
    intro i hi1 _
    have h1 : (0 : Int) ≤ ((m k).length : Int) := by positivity
    have h2 : (1 : Int) ≤ (i : Int) := by exact_mod_cast hi1
    omega
  have h := runSeq_accum_all send ins ba k hF m hno
  refine ⟨h.1, ?_, ?_⟩
  · rw [h.2, BatchMap.update_same]
  · rw [h.2, BatchMap.update_same, List.length_append]

/-- Witness for **C9** at `batchAmount = 0` (the uninitialized Go value)
with two batched notifications. -/
theorem nonpositive_batch_amount_never_flushes_witness :
    ((runSeq (fun _ _ => true) (fun _ => true) 0 (fun _ => [])
        [⟨"2024-01-09", "ev9", "email", "batch", some (emailJson ⟨"a@x.com", "p"⟩)⟩,
         ⟨"2024-01-09", "ev9", "email", "batch",
           some (emailJson ⟨"b@x.com", "q"⟩)⟩]).2 "ev9").length = 0 + 2 := by
  have h := nonpositive_batch_amount_never_flushes (fun _ _ => true) (fun _ => true) 0
    "ev9"
    [⟨"2024-01-09", "ev9", "email", "batch", some (emailJson ⟨"a@x.com", "p"⟩)⟩,
     ⟨"2024-01-09", "ev9", "email", "batch", some (emailJson ⟨"b@x.com", "q"⟩)⟩]
    [⟨"a@x.com", "p"⟩, ⟨"b@x.com", "q"⟩]
    (List.Forall₂.cons ⟨rfl, rfl, rfl, rfl⟩
      (List.Forall₂.cons ⟨rfl, rfl, rfl, rfl⟩ List.Forall₂.nil))
    (fun _ => []) (by omega)
  exact h.2.2

/-- Shape of the map after any single dispatch: unchanged, or updated
only at the dispatched notification's own event key. -/
theorem handle_map_eq_or_update (send : String → String → Bool)
    (ins : Notification → Bool) (ba : Int) (m : BatchMap) (n : Notification) :
    (handleNotification send ins ba m n).map = m ∨
      ∃ v, (handleNotification send ins ba m n).map = m.update n.eventName v := by
  by_cases hr : n.deliveryRoute = "email"
  · cases hdec : unmarshalEmail n.metadata with
    | none =>
      left
      rw [handle_email_decode_fail send ins ba m n hr hdec]
    | some em =>
      by_cases hty : n.notificationType = "instant"
      · cases hs : send em.emailAddress em.emailBody with
        | true =>
          left
          rw [handle_instant_send_ok send ins ba m n em hr hty hdec hs]
        | false =>
          left
          rw [handle_instant_send_fail send ins ba m n em hr hty hdec hs]
      · by_cases htyb : n.notificationType = "batch"
        · by_cases hl : ((m n.eventName).length + 1 : Int) = ba
          · cases hs : send (m n.eventName ++ [em]).headI.emailAddress
                (joinBodies (m n.eventName ++ [em])) with
            | true =>
              right
              exact ⟨[], by
                rw [handle_batch_flush_ok send ins ba m n em hr htyb hdec hl hs]⟩
            | false =>
              right
              exact ⟨m n.eventName ++ [em], by
                rw [handle_batch_flush_fail send ins ba m n em hr htyb hdec hl hs]⟩
          · right
            exact ⟨m n.eventName ++ [em], by
              rw [handle_batch_accum send ins ba m n em hr htyb hdec hl]⟩
        · left
          rw [handle_email_unknown_type send ins ba m n em hr hty htyb hdec]
  · by_cases hsys : n.deliveryRoute = "system"
    · cases hins : ins n with
      | true =>
        left
        rw [handle_system_ins_ok send ins ba m n hsys hins]
      | false =>
        left
        rw [handle_system_ins_fail send ins ba m n hsys hins]
    · left
      rw [handle_unroutable send ins ba m n hr hsys]

/-- **C10** (counterexample): a rejected dispatch does NOT always leave
the batch map unchanged: a batched dispatch whose flush send fails
responds 500 (rejected) yet has appended the element to the key's queue
(and the failed flush did not clear it). -/
theorem frame_property_refuted :
    (handleNotification (fun _ _ => false) (fun _ => true) 1 (fun _ => [])
        ⟨"2024-01-10", "ev10", "email", "batch",
          some (emailJson ⟨"z@x.com", "zz"⟩)⟩).response =
      HttpResp.serverError "Failed to send email" ∧
    (handleNotification (fun _ _ => false) (fun _ => true) 1 (fun _ => [])
        ⟨"2024-01-10", "ev10", "email", "batch",
          some (emailJson ⟨"z@x.com", "zz"⟩)⟩).map "ev10" =
      [⟨"z@x.com", "zz"⟩] ∧
    ([⟨"z@x.com", "zz"⟩] : List EmailMetadata) ≠ [] := by
  exact ⟨by decide, by decide, by decide⟩

/-- **C10** (amended): a dispatch mutates at most the batch-queue entry
keyed by its own `eventName` — every other key is untouched — and the
whole map is unchanged whenever the dispatched notification is not an
email+batch one that decodes successfully (i.e., for non-email routes,
for email with a non-"batch" type, and for email dispatches whose
metadata fails to decode).  A flush-send-failure dispatch, despite being
rejected 500, retains its appended element. -/
theorem dispatch_frame_property (send : String → String → Bool)
    (ins : Notification → Bool) (ba : Int) (m : BatchMap) (n : Notification) :
    (∀ j, j ≠ n.eventName → (handleNotification send ins ba m n).map j = m j) ∧
    (n.deliveryRoute ≠ "email" → (handleNotification send ins ba m n).map = m) ∧
    (n.deliveryRoute = "email" → n.notificationType ≠ "batch" →
      (handleNotification send ins ba m n).map = m) ∧
    (n.deliveryRoute = "email" → unmarshalEmail n.metadata = none →
      (handleNotification send ins ba m n).map = m) := by
  refine ⟨?_, ?_, ?_, ?_⟩
  · intro j hj
    rcases handle_map_eq_or_update send ins ba m n with h | ⟨v, h⟩
    · rw [h]
    · rw [h]
      exact BatchMap.update_ne m n.eventName v j hj
  · intro hr
    by_cases hsys : n.deliveryRoute = "system"
    · cases hins : ins n with
      | true => rw [handle_system_ins_ok send ins ba m n hsys hins]
      | false => rw [handle_system_ins_fail send ins ba m n hsys hins]
    · rw [handle_unroutable send ins ba m n hr hsys]
  · intro hr htyb
    cases hdec : unmarshalEmail n.metadata with
    | none => rw [handle_email_decode_fail send ins ba m n hr hdec]
    | some em =>
      by_cases hty : n.notificationType = "instant"
      · cases hs : send em.emailAddress em.emailBody with
        | true => rw [handle_instant_send_ok send ins ba m n em hr hty hdec hs]
        | false => rw [handle_instant_send_fail send ins ba m n em hr hty hdec hs]
      · rw [handle_email_unknown_type send ins ba m n em hr hty htyb hdec]
  · intro hr hdec
    rw [handle_email_decode_fail send ins ba m n hr hdec]

/-- Witness for the amended **C10**: a batched dispatch for key "ev10w"
leaves the queue of the unrelated key "other" unchanged, and an
email+instant dispatch leaves the whole map unchanged. -/
theorem dispatch_frame_property_witness :
    (handleNotification (fun _ _ => true) (fun _ => true) 3 (fun _ => [])
        ⟨"2024-01-10", "ev10w", "email", "batch",
          some (emailJson ⟨"z@x.com", "zz"⟩)⟩).map "other" = [] ∧
    (handleNotification (fun _ _ => true) (fun _ => true) 3 (fun _ => [])
        ⟨"2024-01-10", "ev10w", "email", "instant",
          some (emailJson ⟨"z@x.com", "zz"⟩)⟩).map = (fun _ => []) := by
  constructor
  · exact (dispatch_frame_property (fun _ _ => true) (fun _ => true) 3 (fun _ => [])
      ⟨"2024-01-10", "ev10w", "email", "batch",
        some (emailJson ⟨"z@x.com", "zz"⟩)⟩).1 "other" (by decide)
  · exact (dispatch_frame_property (fun _ _ => true) (fun _ => true) 3 (fun _ => [])
      ⟨"2024-01-10", "ev10w", "email", "instant",
        some (emailJson ⟨"z@x.com", "zz"⟩)⟩).2.2.1 rfl (by decide)
